import Mathlib

/-
Verification of the Kubernetes-Query-System repository.

The development shallowly embeds the two core components of the repository:
the resource query dispatcher (src/tools/kubconnect.py, execute_k8s_query and
get_api_map_from_csv) and the agent conversation loop
(src/llm_agent.py, run_agent_query; src/llm_agent_langchain.py,
KubernetesSREAgent.chat and KubernetesSREAgent.start_new_session).
External collaborators (the Kubernetes client, the CSV file on disk, the
remote model API, the tool HTTP server, json.loads) are modelled as
environment records of functions supplied to the embedded code; the control
flow of the embedded functions follows the Python source line by line.
Python exception propagation is rendered as Except values: a value
Except.error e escaping a function models an uncaught Python exception.
-/

namespace KQS

/-- The ASCII single-quote character, used in the error message strings of
execute_k8s_query. -/
def sq : String := String.singleton (Char.ofNat 39)

/-- One row of the resource mapping CSV (tools/resources.csv), as read by
csv.DictReader in get_api_map_from_csv: columns resource, api_version,
method_suffix. -/
structure CsvRow where
  resource : String
  api_version : String
  method_suffix : String
deriving DecidableEq

/-- The two API surface objects constructed in get_api_map_from_csv:
client.CoreV1Api() and client.AppsV1Api(). -/
inductive Surface where
  | core
  | apps
deriving DecidableEq

/-- A serialized payload value: either a diagnostic string or an opaque
serialized object graph (the result of result_obj.to_dict(), abstracted by
an identifier since the dispatcher never inspects it). -/
inductive Data where
  | str : String → Data
  | obj : Nat → Data
deriving DecidableEq

/-- The Python exceptions distinguished by the except clauses of
execute_k8s_query: kubernetes ApiException (carrying its body attribute),
AttributeError, and any other exception (carrying str(e)). -/
inductive PyExc where
  | apiException : String → PyExc
  | attributeError : PyExc
  | other : String → PyExc
deriving DecidableEq

/-- The keyword arguments dictionary built by execute_k8s_query: always a
namespace entry, and a name entry only when name is truthy. -/
structure Kwargs where
  namespace_ : String
  name : Option String
deriving DecidableEq

/-- The result dictionary returned by execute_k8s_query: keys status and
data. -/
structure QueryResult where
  status : String
  data : Data
deriving DecidableEq

/-- Instrumentation record for one call of execute_k8s_query: how many times
load_kube_config was attempted, how many times the CSV mapping source was
read (get_api_map_from_csv calls), which getattr lookups were performed on
an API surface, and which operations were actually invoked with which
keyword arguments. -/
structure Trace where
  configLoads : Nat
  csvReads : Nat
  getattrs : List (Surface × String)
  invocations : List (Surface × String × Kwargs)
deriving DecidableEq

/-- The external collaborators of execute_k8s_query: kube-config loading,
the CSV file contents, attribute existence and invocation behaviour of the
two API surfaces, and json.loads as used on an ApiException body (restricted
to flat string dictionaries; any other outcome is a raised exception). -/
structure Env where
  loadConfig : Except PyExc Unit
  readCsv : Except PyExc (List CsvRow)
  hasMethod : Surface → String → Bool
  invoke : Surface → String → Kwargs → Except PyExc Data
  jsonLoads : String → Except PyExc (List (String × String))

/-- Embedding of get_api_map_from_csv (kubconnect.py lines 14 to 34), applied
to the parsed rows of the CSV file: rows with api_version v1 map to the core
surface, rows with apps_v1 to the apps surface, any other api_version is
skipped. Later rows overwrite earlier ones exactly as Python dict assignment
does; the association list is built by prepending so that List.lookup finds
the most recent binding. -/
def get_api_map_from_csv (rows : List CsvRow) : List (String × Surface × String) :=
  rows.foldl (fun api_map row =>
    if row.api_version = "v1" then
      (row.resource, (Surface.core, row.method_suffix)) :: api_map
    else if row.api_version = "apps_v1" then
      (row.resource, (Surface.apps, row.method_suffix)) :: api_map
    else api_map) []

/-- Model of the Python str.lower() method applied to a resource-type
string, restricted to the ASCII case mapping (the resource types of the
mapping are ASCII identifiers). -/
def pyLower (s : String) : String := ⟨s.data.map Char.toLower⟩

/-- Python truthiness of the optional string argument name, as tested by
the expressions if name in execute_k8s_query: None and the empty string are
falsy, every other string is truthy. -/
def pyTruthy : Option String → Bool
  | none => false
  | some s => if s = "" then false else true

/-- Python f-string rendering of dict.get, which yields None when the key is
absent: an absent message key prints as the string None. -/
def pyStrOfOption : Option String → String
  | some s => s
  | none => "None"

/-- The three except clauses of execute_k8s_query (kubconnect.py lines 100
to 111), applied to the exception raised by the try body. The ApiException
clause itself runs json.loads(e.body); an exception raised there propagates
out of the handler (modelled by the Except.error case), since a Python
except clause does not protect code running inside a sibling handler. The
AttributeError clause formats the method_name variable in scope at the time
of the exception. -/
def handleExc (env : Env) (method_name : String) : PyExc → Except PyExc QueryResult
  | PyExc.apiException body =>
      match env.jsonLoads body with
      | Except.ok error_body =>
          Except.ok ⟨"error",
            Data.str ("Kubernetes API Error: " ++ pyStrOfOption (error_body.lookup "message"))⟩
      | Except.error e => Except.error e
  | PyExc.attributeError =>
      Except.ok ⟨"error",
        Data.str ("Internal Tool Error: Could not find method " ++ sq ++ method_name ++ sq
          ++ ". Check the API map.")⟩
  | PyExc.other msg =>
      Except.ok ⟨"error", Data.str ("An unexpected error occurred: " ++ msg)⟩

/-- Embedding of execute_k8s_query (kubconnect.py lines 39 to 111).
The function loads the kube config, re-reads the CSV mapping, lowercases the
resource type and looks it up, composes the operation name from the
truthiness of name, fetches the method by getattr, invokes it, and wraps the
serialized result; each failure is routed through the except clauses via
handleExc. The returned Trace records the external interactions of this one
call. The cluster_context and demo_mode parameters are accepted and ignored,
as in the source. -/
def execute_k8s_query (env : Env) (resource_type : String)
    (namespace_ : String := "default") (name : Option String := none)
    (cluster_context : Option String := none) (demo_mode : Bool := false) :
    Except PyExc QueryResult × Trace :=
  match env.loadConfig with
  | Except.error e => (handleExc env "" e, ⟨1, 0, [], []⟩)
  | Except.ok _ =>
    match env.readCsv with
    | Except.error e => (handleExc env "" e, ⟨1, 1, [], []⟩)
    | Except.ok rows =>
      let resource_map := get_api_map_from_csv rows
      let resource_type_lower := pyLower resource_type
      match resource_map.lookup resource_type_lower with
      | none =>
          (Except.ok ⟨"error",
             Data.str ("Unsupported resource type: " ++ sq ++ resource_type ++ sq ++ ".")⟩,
           ⟨1, 1, [], []⟩)
      | some (api_client, method_suffix) =>
          let action := if pyTruthy name then "read" else "list"
          let method_name := action ++ "_namespaced_" ++ method_suffix
          let kwargs : Kwargs := ⟨namespace_, if pyTruthy name then name else none⟩
          if env.hasMethod api_client method_name then
            match env.invoke api_client method_name kwargs with
            | Except.ok d =>
                (Except.ok ⟨"success", d⟩,
                 ⟨1, 1, [(api_client, method_name)], [(api_client, method_name, kwargs)]⟩)
            | Except.error e =>
                (handleExc env method_name e,
                 ⟨1, 1, [(api_client, method_name)], [(api_client, method_name, kwargs)]⟩)
          else
            (handleExc env method_name PyExc.attributeError,
             ⟨1, 1, [(api_client, method_name)], []⟩)

/-- A CSV content with one core-surface and one apps-surface resource, used
by the concrete environments below. -/
def podRows : List CsvRow :=
  [⟨"pod", "v1", "pod"⟩, ⟨"deployment", "apps_v1", "deployment"⟩]

/-- A benign environment: config loads, the CSV reads podRows, every method
exists, every invocation succeeds with an opaque object. -/
def envOk : Env where
  loadConfig := Except.ok ()
  readCsv := Except.ok podRows
  hasMethod := fun _ _ => true
  invoke := fun _ _ _ => Except.ok (Data.obj 0)
  jsonLoads := fun _ => Except.ok []

/-- An environment in which the remote API raises an ApiException whose body
is an HTML page, and json.loads raises a JSONDecodeError on it (rendered as
a PyExc.other with the standard json module message). -/
def envBadBody : Env where
  loadConfig := Except.ok ()
  readCsv := Except.ok podRows
  hasMethod := fun _ _ => true
  invoke := fun _ _ _ => Except.error (PyExc.apiException "<html>Service Unavailable</html>")
  jsonLoads := fun _ => Except.error (PyExc.other "Expecting value: line 1 column 1 (char 0)")

/-- The role tag of a conversation message, as used in the message
dictionaries of run_agent_query (llm_agent.py). -/
inductive Role where
  | system
  | user
  | assistant
  | tool
deriving DecidableEq

/-- One tool-call request inside a model response: its identifier, the
function name, and the JSON argument payload (kept as an opaque string). -/
structure ToolCall where
  id : String
  function_name : String
  arguments : String
deriving DecidableEq

/-- One entry of the messages list of run_agent_query. System and user
messages carry only role and content; assistant responses may carry
tool-call requests; tool messages carry the originating call identifier and
the tool name. -/
structure Message where
  role : Role
  content : String
  tool_calls : List ToolCall
  tool_call_id : Option String
  name : Option String
deriving DecidableEq

/-- A model response message as returned by the chat-completions API
(choices zero, message): text content plus zero or more tool-call
requests; its role is always assistant. -/
structure ModelMsg where
  content : String
  tool_calls : List ToolCall
deriving DecidableEq

/-- The system prompt of llm_agent.py, abridged to its first sentence; the
claims below never inspect the prompt text. -/
def SYSTEM_PROMPT : String :=
  "You are a helpful and highly intelligent DevOps assistant."

/-- The initial system message of run_agent_query. -/
def systemMessage : Message := ⟨Role.system, SYSTEM_PROMPT, [], none, none⟩

/-- The user message appended by run_agent_query for the given prompt. -/
def userMessage (content : String) : Message := ⟨Role.user, content, [], none, none⟩

/-- The model response appended to the history, exactly as the API returns
it: role assistant, content, tool-call requests. -/
def assistantOf (m : ModelMsg) : Message := ⟨Role.assistant, m.content, m.tool_calls, none, none⟩

/-- The tool message appended by run_agent_query after executing a tool
call: role tool, the serialized tool result as content, the originating call
identifier and the function name. -/
def toolMessage (id function_name content : String) : Message :=
  ⟨Role.tool, content, [], some id, some function_name⟩

/-- The external collaborators of run_agent_query: the scripted
chat-completions model, which maps a full message history to one response
message, and the tool HTTP server, which maps the JSON argument payload of a
call to the serialized tool result string placed in the tool message
content. -/
structure AgentEnv where
  model : List Message → ModelMsg
  toolServer : String → String

/-- The observable outcome of one run_agent_query turn: the final messages
list, the text printed as the final DevOps-assistant answer (none on the
path that dispatches nothing and prints nothing), and instrumentation counts
of model calls and tool dispatches. -/
structure AgentResult where
  messages : List Message
  displayed : Option String
  modelCalls : Nat
  dispatches : Nat
deriving DecidableEq

/-- Embedding of run_agent_query (llm_agent.py lines 31 to 134). The history
starts with the system prompt and the user prompt; the model is called once;
its response is appended. If the response carries tool calls and the first
one names execute_kubernetes_query, that single call is dispatched to the
tool server, a tool message is appended, the model is called a second time,
and the content of the second response is printed; the second response is
not appended to the history. If the first tool call names any other
function, nothing further happens and nothing is printed. Without tool
calls, the first response content is printed. -/
def run_agent_query (env : AgentEnv) (user_prompt : String) : AgentResult :=
  let messages0 := [systemMessage, userMessage user_prompt]
  let response_message := env.model messages0
  let messages1 := messages0 ++ [assistantOf response_message]
  match response_message.tool_calls with
  | [] =>
      { messages := messages1, displayed := some response_message.content,
        modelCalls := 1, dispatches := 0 }
  | tool_call :: _ =>
      if tool_call.function_name = "execute_kubernetes_query" then
        let tool_result := env.toolServer tool_call.arguments
        let messages2 := messages1 ++
          [toolMessage tool_call.id tool_call.function_name tool_result]
        let final_response := env.model messages2
        { messages := messages2, displayed := some final_response.content,
          modelCalls := 2, dispatches := 1 }
      else
        { messages := messages1, displayed := none,
          modelCalls := 1, dispatches := 0 }

/-- A LangChain conversation message as stored in
KubernetesSREAgent.chat_history: HumanMessage or AIMessage with text
content. -/
inductive LCMessage where
  | human : String → LCMessage
  | ai : String → LCMessage
deriving DecidableEq

/-- The per-session mutable state of KubernetesSREAgent: its chat_history
field. -/
structure SREAgentState where
  chat_history : List LCMessage
deriving DecidableEq

/-- Embedding of KubernetesSREAgent.start_new_session
(llm_agent_langchain.py lines 244 to 251): the chat history is reset to the
empty list. -/
def start_new_session (s : SREAgentState) : SREAgentState := ⟨[]⟩

/-- Embedding of KubernetesSREAgent.chat (llm_agent_langchain.py lines 225
to 242) as explicit state passing. The agent-executor invocation receives
the user question and the current chat history; a raised exception
(Except.error) propagates out of chat before any mutation, leaving the state
unchanged; on success the human question and the AI output are appended and
the output is returned. -/
def chat (invoke : String → List LCMessage → Except String String)
    (s : SREAgentState) (user_question : String) :
    Except String String × SREAgentState :=
  match invoke user_question s.chat_history with
  | Except.error e => (Except.error e, s)
  | Except.ok out =>
      (Except.ok out,
       ⟨s.chat_history ++ [LCMessage.human user_question, LCMessage.ai out]⟩)

/-- The iteration budget configured on the AgentExecutor in
KubernetesSREAgent (llm_agent_langchain.py line 217): max_iterations is 15. -/
def sreAgentMaxIterations : Nat := 15

/-- The external collaborators of the LangChain agent loop: the model, and
the per-call dispatch of one tool call to its result string. -/
structure LoopEnv where
  model : List Message → ModelMsg
  dispatch : ToolCall → String

/-- Modelled from the spec: the bounded Agent Loop of spec section 4.2,
implemented in this repository by the external langchain AgentExecutor,
whose source is not part of the repository; only its configuration
(max_iterations, see sreAgentMaxIterations) is in
KubernetesSREAgent.__init__. Each iteration calls the model; a response
without tool calls is the final answer and ends the loop; otherwise the
assistant response and one tool message per requested call are appended and
the loop continues; when the budget reaches zero the loop stops issuing
model calls. Returns the history, the final answer if one was produced, and
the number of model calls performed. -/
def agentLoopRun (env : LoopEnv) : Nat → List Message → List Message × Option String × Nat
  | 0, history => (history, none, 0)
  | Nat.succ n, history =>
    let mm := env.model history
    match mm.tool_calls with
    | [] => (history ++ [assistantOf mm], some mm.content, 1)
    | tcs =>
      let history2 := (history ++ [assistantOf mm]) ++
        tcs.map (fun tc => toolMessage tc.id tc.function_name (env.dispatch tc))
      let r := agentLoopRun env n history2
      (r.1, r.2.1, r.2.2 + 1)

/-- A scripted agent environment: on the opening two-message history the
model requests one execute_kubernetes_query call; on any longer history it
answers with plain text. -/
def envRoundTrip : AgentEnv where
  model := fun h =>
    if h.length = 2 then ⟨"", [⟨"call_1", "execute_kubernetes_query", "args"⟩]⟩
    else ⟨"All pods are healthy.", []⟩
  toolServer := fun _ => "toolresult"

/-- A scripted agent environment whose model requests two tool calls in its
first response. -/
def envTwoCalls : AgentEnv where
  model := fun h =>
    if h.length = 2 then
      ⟨"", [⟨"call_1", "execute_kubernetes_query", "args1"⟩,
            ⟨"call_2", "execute_kubernetes_query", "args2"⟩]⟩
    else ⟨"done", []⟩
  toolServer := fun _ => "toolresult"

/-- A scripted loop environment whose model requests a tool call on every
response and never produces a final text answer. -/
def envEndless : LoopEnv where
  model := fun _ => ⟨"", [⟨"call_1", "get_kubernetes_resource", "args"⟩]⟩
  dispatch := fun _ => "result"

/-- A LangChain invocation that always fails with a transport error. -/
def failingInvoke : String → List LCMessage → Except String String :=
  fun _ _ => Except.error "transport failure"

lemma data_append (p q : String) : (p ++ q).data = p.data ++ q.data := by
  cases p
  cases q
  rfl

lemma str_append_ne (c d : Char) (tp tq : List Char) (p q a b : String)
    (hp : p.data = c :: tp) (hq : q.data = d :: tq) (hcd : ¬ c = d) :
    ¬ (p ++ a = q ++ b) := by
  intro h
  have h2 := congrArg String.data h
  rw [data_append, data_append, hp, hq] at h2
  simp only [List.cons_append, List.cons.injEq] at h2
  exact hcd h2.1

/-- C1: the dispatcher is claimed never to let an exception escape, in
particular when the body of a remote ApiException is not parseable JSON.
The code contradicts this: json.loads runs inside the ApiException handler,
so on an unparseable body the JSONDecodeError propagates out of
execute_k8s_query instead of being converted to an error result. This
theorem evaluates the dispatcher at such a failing input and shows the
escaped exception. -/
theorem execute_k8s_query_unparseable_body_escapes :
    (execute_k8s_query envBadBody "pod" "default" none none false).1 =
      Except.error (PyExc.other "Expecting value: line 1 column 1 (char 0)") ∧
    ∀ r : QueryResult,
      ¬ ((execute_k8s_query envBadBody "pod" "default" none none false).1 = Except.ok r) := by
  refine ⟨rfl, fun r hr => ?_⟩
  rw [show (execute_k8s_query envBadBody "pod" "default" none none false).1 =
      Except.error (PyExc.other "Expecting value: line 1 column 1 (char 0)") from rfl] at hr
  cases hr

/-- C3: for every resource-type string whose lower-casing is not in the
mapping, execute_k8s_query returns a status-error result whose payload names
the string as originally supplied, and no getattr lookup and no remote read
or list invocation is attempted; the outcome is the direct return value of
the call (terminal, no retry). -/
theorem execute_k8s_query_unsupported_type (env : Env) (rows : List CsvRow)
    (resource_type namespace_ : String) (name : Option String)
    (hc : env.loadConfig = Except.ok ())
    (hr : env.readCsv = Except.ok rows)
    (hm : (get_api_map_from_csv rows).lookup (pyLower resource_type) = none) :
    execute_k8s_query env resource_type namespace_ name none false =
      (Except.ok ⟨"error",
         Data.str ("Unsupported resource type: " ++ sq ++ resource_type ++ sq ++ ".")⟩,
       ⟨1, 1, [], []⟩) := by
  simp [execute_k8s_query, hc, hr, hm]

/-- Witness for C3 at the unsupported resource type widget. -/
theorem execute_k8s_query_unsupported_type_witness :
    execute_k8s_query envOk "widget" "default" none none false =
      (Except.ok ⟨"error",
         Data.str ("Unsupported resource type: " ++ sq ++ "widget" ++ sq ++ ".")⟩,
       ⟨1, 1, [], []⟩) :=
  execute_k8s_query_unsupported_type envOk podRows "widget" "default" none rfl rfl rfl

/-- C7 counterexample: the claim says the mapping is read from its static
source exactly once at dispatcher construction time and no individual query
re-reads it; in the code get_api_map_from_csv runs inside execute_k8s_query,
so already a single query reads the CSV source once rather than zero
times. -/
theorem execute_k8s_query_query_reads_csv :
    (execute_k8s_query envOk "pod" "kube-system" none none false).2.csvReads = 1 ∧
    ¬ ((execute_k8s_query envOk "pod" "kube-system" none none false).2.csvReads = 0) := by
  exact ⟨rfl, by decide⟩

/-- C7 amended: the resource-type mapping is re-read from the CSV source on
every dispatch: each call of execute_k8s_query whose kube-config load
succeeds performs exactly one read of the mapping source, and none is
performed at construction time. -/
theorem execute_k8s_query_csv_read_per_call (env : Env)
    (resource_type namespace_ : String) (name : Option String)
    (hc : env.loadConfig = Except.ok ()) :
    (execute_k8s_query env resource_type namespace_ name none false).2.csvReads = 1 := by
  simp only [execute_k8s_query, hc]
  cases env.readCsv with
  | error e => rfl
  | ok rows =>
    simp only
    cases (get_api_map_from_csv rows).lookup (pyLower resource_type) with
    | none => rfl
    | some p =>
      obtain ⟨c, sfx⟩ := p
      simp only
      split <;> split <;> first
        | rfl
        | (split <;> rfl)

/-- Witness for C7 amended at a concrete environment and query. -/
theorem execute_k8s_query_csv_read_per_call_witness :
    (execute_k8s_query envOk "deployment" "default" none none false).2.csvReads = 1 :=
  execute_k8s_query_csv_read_per_call envOk "deployment" "default" none rfl

/-- C9: start_new_session clears the session history back to the empty list
and is idempotent; resetting an already-empty session is a no-op. -/
theorem start_new_session_clears_and_idempotent :
    ∀ s : SREAgentState,
      (start_new_session s).chat_history = [] ∧
      start_new_session (start_new_session s) = start_new_session s ∧
      start_new_session ⟨[]⟩ = (⟨[]⟩ : SREAgentState) :=
  fun _ => ⟨rfl, rfl, rfl⟩

/-- C10: atomicity of a failed turn in KubernetesSREAgent.chat. If the
agent-executor invocation raises, the raised error propagates and the
session state is returned unchanged; in particular the user question of the
failing turn is not appended. The human and AI messages are appended only
after the invocation returns successfully. -/
theorem chat_failed_turn_atomic
    (invoke : String → List LCMessage → Except String String)
    (s : SREAgentState) (q : String) :
    (∀ e, invoke q s.chat_history = Except.error e →
      chat invoke s q = (Except.error e, s)) ∧
    (∀ out, invoke q s.chat_history = Except.ok out →
      chat invoke s q =
        (Except.ok out, ⟨s.chat_history ++ [LCMessage.human q, LCMessage.ai out]⟩)) := by
  constructor <;> intro x hx <;> simp [chat, hx]

/-- Witness for C10: a concrete failing invocation leaves a concrete
non-empty history unchanged. -/
theorem chat_failed_turn_atomic_witness :
    chat failingInvoke ⟨[LCMessage.human "earlier", LCMessage.ai "fine"]⟩ "new question" =
      (Except.error "transport failure",
       ⟨[LCMessage.human "earlier", LCMessage.ai "fine"]⟩) :=
  (chat_failed_turn_atomic failingInvoke
    ⟨[LCMessage.human "earlier", LCMessage.ai "fine"]⟩ "new question").1
    "transport failure" rfl

/-- C2 counterexample: the claim says a present name, including the empty
string, selects the read operation with both namespace and name; but Python
truthiness makes the empty string select the list operation, invoked with
the namespace only. -/
theorem execute_k8s_query_empty_name_lists :
    (execute_k8s_query envOk "pod" "default" (some "") none false).2.invocations =
      [(Surface.core, "list_namespaced_pod", ⟨"default", none⟩)] ∧
    (execute_k8s_query envOk "pod" "default" (some "") none false).2.getattrs =
      [(Surface.core, "list_namespaced_pod")] ∧
    ¬ ((execute_k8s_query envOk "pod" "default" (some "") none false).2.invocations =
      [(Surface.core, "read_namespaced_pod", ⟨"default", some ""⟩)]) := by
  refine ⟨rfl, rfl, by decide⟩

/-- C2 amended: for every supported resource type, execute_k8s_query selects
the operation mode solely as a function of the truthiness of the name
argument: when name is absent or the empty string it composes and invokes
the list operation with the namespace argument only, and when name is a
non-empty string it composes and invokes the read operation with both
namespace and name. -/
theorem execute_k8s_query_mode_truthiness (env : Env) (rows : List CsvRow)
    (resource_type namespace_ : String) (name : Option String)
    (c : Surface) (sfx : String)
    (hc : env.loadConfig = Except.ok ())
    (hr : env.readCsv = Except.ok rows)
    (hm : (get_api_map_from_csv rows).lookup (pyLower resource_type) = some (c, sfx))
    (hh : env.hasMethod c ((if pyTruthy name then "read" else "list") ++ "_namespaced_" ++ sfx)
      = true) :
    (execute_k8s_query env resource_type namespace_ name none false).2.getattrs =
      [(c, (if pyTruthy name then "read" else "list") ++ "_namespaced_" ++ sfx)] ∧
    (execute_k8s_query env resource_type namespace_ name none false).2.invocations =
      [(c, (if pyTruthy name then "read" else "list") ++ "_namespaced_" ++ sfx,
        ⟨namespace_, if pyTruthy name then name else none⟩)] ∧
    pyTruthy none = false ∧ pyTruthy (some "") = false ∧
    ∀ s : String, ¬ (s = "") → pyTruthy (some s) = true := by
  refine ⟨?_, ?_, rfl, rfl, fun s hs => by simp [pyTruthy, hs]⟩ <;>
    · simp only [execute_k8s_query, hc, hr, hm, hh, if_true]
      cases env.invoke c ((if pyTruthy name then "read" else "list") ++ "_namespaced_" ++ sfx)
          ⟨namespace_, if pyTruthy name then name else none⟩ with
      | ok d => rfl
      | error e => rfl

/-- Witness for C2 amended: a non-empty name on the pod mapping invokes the
read operation with both namespace and name. -/
theorem execute_k8s_query_mode_truthiness_witness :
    (execute_k8s_query envOk "pod" "default" (some "api-server") none false).2.invocations =
      [(Surface.core, "read_namespaced_pod", ⟨"default", some "api-server"⟩)] :=
  (execute_k8s_query_mode_truthiness envOk podRows "pod" "default" (some "api-server")
    Surface.core "pod" rfl rfl rfl rfl).2.1

/-- C5 counterexample: with a scripted model that first requests one
execute_kubernetes_query call and then answers with plain text, the turn
does perform two model calls and one dispatch, but the history it leaves
has exactly four messages (system, user, assistant with tool call, tool
result), not the claimed five: the final assistant message is never
appended. -/
theorem run_agent_query_history_not_five :
    (run_agent_query envRoundTrip "list the pods").messages.map Message.role =
      [Role.system, Role.user, Role.assistant, Role.tool] ∧
    (run_agent_query envRoundTrip "list the pods").messages.length = 4 ∧
    ¬ ((run_agent_query envRoundTrip "list the pods").messages.length = 5) ∧
    (run_agent_query envRoundTrip "list the pods").modelCalls = 2 ∧
    (run_agent_query envRoundTrip "list the pods").dispatches = 1 ∧
    (run_agent_query envRoundTrip "list the pods").displayed =
      some "All pods are healthy." := by
  exact ⟨rfl, rfl, by decide, rfl, rfl, rfl⟩

/-- C5 amended: for a model that first returns a tool-call request whose
first call names execute_kubernetes_query and then, after seeing the tool
result, returns plain text, one turn of run_agent_query performs exactly two
model calls and one dispatch, prints the second call text as the final
answer (the function itself returns nothing), and leaves the turn message
list containing exactly four messages in order: system, user,
assistant with the tool call, tool result; the final assistant message is
not appended to the history. -/
theorem run_agent_query_round_trip (env : AgentEnv) (user_prompt : String)
    (tc : ToolCall) (rest : List ToolCall)
    (h1 : (env.model [systemMessage, userMessage user_prompt]).tool_calls = tc :: rest)
    (h2 : tc.function_name = "execute_kubernetes_query") :
    run_agent_query env user_prompt =
      { messages := [systemMessage, userMessage user_prompt,
          assistantOf (env.model [systemMessage, userMessage user_prompt]),
          toolMessage tc.id tc.function_name (env.toolServer tc.arguments)],
        displayed := some (env.model [systemMessage, userMessage user_prompt,
          assistantOf (env.model [systemMessage, userMessage user_prompt]),
          toolMessage tc.id tc.function_name (env.toolServer tc.arguments)]).content,
        modelCalls := 2, dispatches := 1 } := by
  simp [run_agent_query, h1, h2]

/-- Witness for C5 amended at the scripted round-trip environment. -/
theorem run_agent_query_round_trip_witness :
    run_agent_query envRoundTrip "list the pods" =
      { messages := [systemMessage, userMessage "list the pods",
          Message.mk Role.assistant ""
            [ToolCall.mk "call_1" "execute_kubernetes_query" "args"] none none,
          Message.mk Role.tool "toolresult" [] (some "call_1")
            (some "execute_kubernetes_query")],
        displayed := some "All pods are healthy.",
        modelCalls := 2, dispatches := 1 } :=
  run_agent_query_round_trip envRoundTrip "list the pods"
    ⟨"call_1", "execute_kubernetes_query", "args"⟩ [] rfl rfl

/-- Adjacent-pair condition used by the tool-message invariant: a tool
message may only follow an assistant message that emitted a tool call with
the same identifier. -/
def toolFollowsCall (prev cur : Message) : Bool :=
  if cur.role = Role.tool then
    (if prev.role = Role.assistant then
      (match cur.tool_call_id with
       | some i => prev.tool_calls.any (fun c => c.id == i)
       | none => false)
     else false)
  else true

/-- Checks a predicate on every adjacent pair of a message list. -/
def pairsAll (f : Message → Message → Bool) : List Message → Bool
  | [] => true
  | [_] => true
  | a :: b :: rest => f a b && pairsAll f (b :: rest)

/-- The tool-message invariant over a history: no tool message opens the
history, and every tool message immediately follows an assistant message
that emitted a matching call identifier. -/
def toolCallInvariant (msgs : List Message) : Bool :=
  (match msgs with
   | [] => true
   | msg :: _ => !(msg.role == Role.tool)) && pairsAll toolFollowsCall msgs

/-- C8 counterexample: the claim says that for each requested call the loop
dispatches it and appends its result as a tool message; with a scripted
model requesting two calls, run_agent_query dispatches only the first and
appends exactly one tool message. -/
theorem run_agent_query_drops_second_call :
    (run_agent_query envTwoCalls "q").messages =
      [systemMessage, userMessage "q",
       Message.mk Role.assistant ""
         [ToolCall.mk "call_1" "execute_kubernetes_query" "args1",
          ToolCall.mk "call_2" "execute_kubernetes_query" "args2"] none none,
       Message.mk Role.tool "toolresult" [] (some "call_1")
         (some "execute_kubernetes_query")] ∧
    (run_agent_query envTwoCalls "q").messages.countP
      (fun msg => msg.role == Role.tool) = 1 ∧
    (run_agent_query envTwoCalls "q").dispatches = 1 := by
  exact ⟨rfl, rfl, rfl⟩

/-- C8 amended: when an assistant response contains tool-call requests, the
loop appends the assistant response to the history and then dispatches only
the first requested call, and only when it names execute_kubernetes_query,
appending its result as a tool message tagged with that call identifier;
hence at most one dispatch happens per turn, and every tool message in the
resulting history immediately follows an assistant message that emitted a
matching call identifier (no tool message exists without a matching pending
call). -/
theorem run_agent_query_tool_id_invariant (env : AgentEnv) (user_prompt : String) :
    toolCallInvariant (run_agent_query env user_prompt).messages = true ∧
    (run_agent_query env user_prompt).dispatches ≤ 1 := by
  simp only [run_agent_query]
  generalize env.model [systemMessage, userMessage user_prompt] = mm
  cases h1 : mm.tool_calls with
  | nil =>
      constructor
      · simp [toolCallInvariant, pairsAll, toolFollowsCall,
          systemMessage, userMessage, assistantOf, h1]
      · simp only [h1]
        exact Nat.zero_le 1
  | cons tc rest =>
      by_cases h2 : tc.function_name = "execute_kubernetes_query"
      · constructor
        · simp [toolCallInvariant, pairsAll, toolFollowsCall,
            systemMessage, userMessage, assistantOf, toolMessage, h1, h2]
        · simp only [h1, h2, if_true]
          exact le_refl 1
      · constructor
        · simp [toolCallInvariant, pairsAll, toolFollowsCall,
            systemMessage, userMessage, assistantOf, h1, h2]
        · simp only [h1, h2, if_false]
          exact Nat.zero_le 1

lemma agentLoopRun_always_tool (env : LoopEnv)
    (hm : ∀ h : List Message, ¬ ((env.model h).tool_calls = [])) :
    ∀ (n : Nat) (h₀ : List Message),
      (agentLoopRun env n h₀).2.1 = none ∧ (agentLoopRun env n h₀).2.2 = n := by
  intro n
  induction n with
  | zero => intro h₀; exact ⟨rfl, rfl⟩
  | succ k ih =>
      intro h₀
      cases hc : (env.model h₀).tool_calls with
      | nil => exact absurd hc (hm h₀)
      | cons a as =>
          have hrec := ih ((h₀ ++ [assistantOf (env.model h₀)]) ++
            (a :: as).map (fun tc => toolMessage tc.id tc.function_name (env.dispatch tc)))
          simp only [agentLoopRun, hc]
          exact ⟨hrec.1, by rw [hrec.2]⟩

/-- C6: iteration budget of the LangChain agent loop. The AgentExecutor of
KubernetesSREAgent is configured with max_iterations 15, a fixed bound in
the 10 to 15 range; for a model that requests a tool call on every response
and never produces a final text answer, the loop terminates after exactly
that many model calls (with no final answer) rather than looping forever or
issuing further model calls past the budget. -/
theorem sre_agent_iteration_budget (env : LoopEnv) (h₀ : List Message)
    (hm : ∀ h : List Message, ¬ ((env.model h).tool_calls = [])) :
    10 ≤ sreAgentMaxIterations ∧ sreAgentMaxIterations ≤ 15 ∧
    (agentLoopRun env sreAgentMaxIterations h₀).2.1 = none ∧
    (agentLoopRun env sreAgentMaxIterations h₀).2.2 = sreAgentMaxIterations :=
  ⟨by decide, by decide,
   (agentLoopRun_always_tool env hm sreAgentMaxIterations h₀).1,
   (agentLoopRun_always_tool env hm sreAgentMaxIterations h₀).2⟩

/-- Witness for C6 at the endless scripted environment: the loop stops after
exactly fifteen model calls and yields no final answer. -/
theorem sre_agent_iteration_budget_witness :
    (agentLoopRun envEndless sreAgentMaxIterations []).2.1 = none ∧
    (agentLoopRun envEndless sreAgentMaxIterations []).2.2 = 15 :=
  ⟨(sre_agent_iteration_budget envEndless [] (fun _ => List.cons_ne_nil _ _)).2.2.1,
   (sre_agent_iteration_budget envEndless [] (fun _ => List.cons_ne_nil _ _)).2.2.2⟩

lemma exec_method_shape (env : Env) (resource_type namespace_ : String)
    (name cluster_context : Option String) (demo_mode : Bool) (s : Surface) (m : String)
    (hmem : (s, m) ∈
        (execute_k8s_query env resource_type namespace_ name cluster_context demo_mode).2.getattrs ∨
      ∃ kw, (s, (m, kw)) ∈
        (execute_k8s_query env resource_type namespace_ name cluster_context demo_mode).2.invocations) :
    ∃ sfx, m = (if pyTruthy name then "read" else "list") ++ "_namespaced_" ++ sfx := by
  cases hc : env.loadConfig with
  | error e => simp [execute_k8s_query, hc] at hmem
  | ok u =>
    cases hr : env.readCsv with
    | error e => simp [execute_k8s_query, hc, hr] at hmem
    | ok rows =>
      cases hm : (get_api_map_from_csv rows).lookup (pyLower resource_type) with
      | none => simp [execute_k8s_query, hc, hr, hm] at hmem
      | some p =>
          obtain ⟨c, sfx⟩ := p
          refine ⟨sfx, ?_⟩
          simp only [execute_k8s_query, hc, hr, hm] at hmem
          rcases hmem with hg | ⟨kw, hi⟩
          · repeat' split at hg
            all_goals simp_all
          · repeat' split at hi
            all_goals simp_all

/-- C4: the dispatcher is read-only for all inputs. Every operation name it
looks up on an API surface, and every operation it invokes, begins with
either read-underscore-namespaced or list-underscore-namespaced, and in
particular never begins with a mutating verb (create, update, delete,
patch), including for adversarial resource-type strings. -/
theorem execute_k8s_query_read_only (env : Env) (resource_type namespace_ : String)
    (name cluster_context : Option String) (demo_mode : Bool) (s : Surface) (m : String)
    (hmem : (s, m) ∈
        (execute_k8s_query env resource_type namespace_ name cluster_context demo_mode).2.getattrs ∨
      ∃ kw, (s, (m, kw)) ∈
        (execute_k8s_query env resource_type namespace_ name cluster_context demo_mode).2.invocations) :
    (∃ rest, m = "read_namespaced_" ++ rest ∨ m = "list_namespaced_" ++ rest) ∧
    ∀ rest, ¬ (m = "create" ++ rest) ∧ ¬ (m = "update" ++ rest) ∧
      ¬ (m = "delete" ++ rest) ∧ ¬ (m = "patch" ++ rest) := by
  obtain ⟨sfx, hsfx⟩ := exec_method_shape env resource_type namespace_ name
    cluster_context demo_mode s m hmem
  subst hsfx
  by_cases ht : pyTruthy name = true
  · rw [ht]
    simp only [if_true]
    constructor
    · exact ⟨sfx, Or.inl rfl⟩
    · intro rest
      refine ⟨?_, ?_, ?_, ?_⟩ <;>
        exact str_append_ne _ _ "ead_namespaced_".data _ _ _ sfx rest rfl rfl (by decide)
  · simp only [if_neg ht]
    constructor
    · exact ⟨sfx, Or.inr rfl⟩
    · intro rest
      refine ⟨?_, ?_, ?_, ?_⟩ <;>
        exact str_append_ne _ _ "ist_namespaced_".data _ _ _ sfx rest rfl rfl (by decide)

/-- Witness for C4: the operation looked up for a list query on the pod
mapping begins with list-underscore-namespaced and with no mutating verb. -/
theorem execute_k8s_query_read_only_witness :
    (∃ rest, "list_namespaced_pod" = "read_namespaced_" ++ rest ∨
      "list_namespaced_pod" = "list_namespaced_" ++ rest) ∧
    ∀ rest, ¬ ("list_namespaced_pod" = "create" ++ rest) ∧
      ¬ ("list_namespaced_pod" = "update" ++ rest) ∧
      ¬ ("list_namespaced_pod" = "delete" ++ rest) ∧
      ¬ ("list_namespaced_pod" = "patch" ++ rest) :=
  execute_k8s_query_read_only envOk "pod" "default" none none false
    Surface.core "list_namespaced_pod" (Or.inl (by decide))

end KQS
